import Mathlib

/-!
Shallow embedding of the RINEX observation-stream parser from
rinex/obsreader.go, together with theorems settling claims about it.
Go bytes are modelled as natural numbers (ASCII codes), lines as lists
of bytes, Go error returns and runtime panics as an Except error
channel, and the two user callbacks as recorded events (the setting in
which the callbacks never request a stop).  Go float64/float32 values
are modelled as exact rationals: no claim below depends on binary
rounding.  Slice capacities are carried explicitly where the source
logic observes them (the observation-type catalogs and the satellite
slice of the record being assembled).
-/

namespace Rinex

/-- Result channel of a Go function: a normal error return, or a runtime
panic (index out of range, slice bounds, or an explicit panic call). -/
inductive GoErr where
  | goError (msg : List Nat)
  | goPanic (msg : List Nat)
deriving DecidableEq

/-- Go computations that may fail with an error value or crash with a panic. -/
abbrev M (α : Type) : Type := Except GoErr α

/-- Byte values of an ASCII string literal. -/
def strBytes (s : String) : List Nat := s.toList.map Char.toNat

/-- Go slice expression s[a:b] on a byte string, for the call sites where
the enclosing code guarantees the bounds (80-column padded frames). -/
def sub2 (l : List Nat) (a b : Nat) : List Nat := (l.take b).drop a

/-- Go index expression s[i] for the call sites where the enclosing code
guarantees i is in range (80-column padded frames). -/
def getB (l : List Nat) (i : Nat) : Nat := l.getD i 0

/-- Go index expression s[i] with the runtime bounds check: an index at or
beyond the length is a runtime panic. -/
def getChk (l : List Nat) (i : Nat) : M Nat :=
  if i < l.length then .ok (l.getD i 0)
  else .error (.goPanic (strBytes "runtime error: index out of range"))

/-- Go slice expression s[a:b] with the runtime bounds check. -/
def subChk (l : List Nat) (a b : Nat) : M (List Nat) :=
  if a ≤ b ∧ b ≤ l.length then .ok (sub2 l a b)
  else .error (.goPanic (strBytes "runtime error: slice bounds out of range"))

/-- Go byte subtraction a - b for byte values, wrapping modulo 256. -/
def byteSub (a b : Nat) : Nat := (a + 256 - b % 256) % 256

/-- ASCII decimal digit test. -/
def isDigitB (c : Nat) : Bool := 48 ≤ c && c ≤ 57

/-- White space as trimmed by strings.TrimSpace, ASCII subset. -/
def isSpaceB (c : Nat) : Bool := c = 32 || c = 9 || c = 10 || c = 11 || c = 12 || c = 13

/-- strings.TrimSpace on a byte string. -/
def trimSpace (l : List Nat) : List Nat :=
  ((l.dropWhile isSpaceB).reverse.dropWhile isSpaceB).reverse

/-- Value of a list of decimal digit bytes. -/
def digitsToNat (ds : List Nat) : Nat := ds.foldl (fun a d => a * 10 + (d - 48)) 0

/-- Model of the source helper parseUint: strings.TrimSpace followed by
strconv.ParseUint in base 10 with the given bit size. -/
def parseUint (text : List Nat) (bitSize : Nat) : M Nat :=
  let t := trimSpace text
  if !t.isEmpty && t.all isDigitB then
    if digitsToNat t < 2 ^ bitSize then .ok (digitsToNat t)
    else .error (.goError (strBytes "value out of range"))
  else .error (.goError (strBytes "invalid syntax"))

/-- Exact decimal value num / 10 ^ exp.  A power-of-ten denominator is
kept instead of a Lean rational so that every operation reduces inside
the kernel; decNorm below keeps the representation canonical, so
structural equality of two Dec values coincides with equality of the
rationals they denote.  This represents exactly the values the decimal
fields of the format can denote; no claim depends on binary rounding. -/
structure Dec where
  num : Int
  exp : Nat
deriving DecidableEq

/-- Canonical form of num / 10 ^ exp: strip factors of ten shared by the
numerator and the denominator. -/
def decNorm : Int → Nat → Dec
  | n, 0 => ⟨n, 0⟩
  | n, e+1 => if n % 10 = 0 then decNorm (n / 10) e else ⟨n, e+1⟩

instance (n : Nat) : OfNat Dec n := ⟨⟨n, 0⟩⟩

/-- Exponent part of a decimal floating-point literal, applied to the
mantissa num / 10 ^ exp. -/
def expPart (num : Int) (exp : Nat) (r : List Nat) : M Dec :=
  let p := match r with
    | 45 :: s => (true, s)
    | 43 :: s => (false, s)
    | _ => (false, r)
  let ds := p.2.takeWhile isDigitB
  let rest := p.2.dropWhile isDigitB
  if ds.isEmpty || !rest.isEmpty then .error (.goError (strBytes "invalid syntax"))
  else if p.1 then .ok (decNorm num (exp + digitsToNat ds))
  else .ok (decNorm (num * ((10 ^ digitsToNat ds : Nat) : Int)) exp)

/-- Model of the source helper parseFloat: strings.TrimSpace followed by
strconv.ParseFloat, on the plain decimal forms that RINEX fields use
(optional sign, digits with an optional fraction, optional exponent).
The value is kept exact; binary rounding, overflow to infinity and the
inf/nan word forms are outside the model. -/
def parseFloat (text : List Nat) (_bitSize : Nat) : M Dec :=
  let t := trimSpace text
  let p := match t with
    | 45 :: s => (true, s)
    | 43 :: s => (false, s)
    | _ => (false, t)
  let ip := p.2.takeWhile isDigitB
  let t2 := p.2.dropWhile isDigitB
  let q := match t2 with
    | 46 :: s => (s.takeWhile isDigitB, s.dropWhile isDigitB)
    | _ => ([], t2)
  if ip.length + q.1.length = 0 then .error (.goError (strBytes "invalid syntax"))
  else
    let mag : Int := (digitsToNat (ip ++ q.1) : Nat)
    let num : Int := if p.1 then -mag else mag
    match q.2 with
    | [] => .ok (decNorm num q.1.length)
    | 101 :: r => expPart num q.1.length r
    | 69 :: r => expPart num q.1.length r
    | _ => .error (.goError (strBytes "invalid syntax"))

/-- math.Round on an exact decimal: round half away from zero. -/
def goRound (d : Dec) : Int :=
  let p := 10 ^ d.exp
  if d.num < 0 then -(((2 * d.num.natAbs + p) / (2 * p) : Nat) : Int)
  else (((2 * d.num.natAbs + p) / (2 * p) : Nat) : Int)

/-- Model of the Observation struct: one measurement.  The source
documents that LLI and SignalStrength hold field values, with blank
columns mapped to 0. -/
structure Observation where
  Value : Dec
  LLI : Nat
  SignalStrength : Nat
deriving DecidableEq

/-- Model of the SVObservation struct: satellite id plus observations. -/
structure SVObservation where
  PRN : Nat × Nat × Nat
  Obs : List Observation
deriving DecidableEq

/-- Model of the ObservationRecord struct: one top-level data record. -/
structure ObservationRecord where
  Year : Nat
  Month : Nat
  Day : Nat
  Hour : Nat
  Minute : Nat
  EpochFlag : Nat
  Second : Dec
  Offset : Dec
  Sat : List SVObservation
deriving DecidableEq

/-- Go slice of observation-type codes together with its capacity; the
catalog logic in the source observes cap() of these slices. -/
structure Entry where
  data : List (Nat × Nat × Nat)
  cap : Nat
deriving DecidableEq

/-- Model of the ObsReader struct.  Observations is the map from GNSS
letter to catalog slice; satCap is the capacity of the backing array of
obsRec.Sat, which the source observes via cap() and reslicing. -/
structure ObsReader where
  Observations : List (Nat × Entry)
  version : Int
  year : Nat
  count : Nat
  prnIndex : Nat
  obsIndex : Nat
  inHeader : Bool
  lastSystem : Nat
  obsRec : ObservationRecord
  satCap : Nat
deriving DecidableEq

/-- Calls made to the two user callbacks, in order.  This models the
setting in which HeaderFunc and ObsFunc are both present and always
return nil. -/
inductive Event where
  | header (label value : List Nat)
  | obs (rec : ObservationRecord)
deriving DecidableEq

/-- Lookup in the Observations map. -/
def mapLookup (m : List (Nat × Entry)) (k : Nat) : Option Entry :=
  match m with
  | [] => none
  | kv :: rest => if kv.1 = k then some kv.2 else mapLookup rest k

/-- Go map read in value position: a missing key yields the zero slice. -/
def lookupD (m : List (Nat × Entry)) (k : Nat) : Entry :=
  (mapLookup m k).getD ⟨[], 0⟩

/-- Go map write; keys stay unique. -/
def mapInsert (m : List (Nat × Entry)) (k : Nat) (v : Entry) : List (Nat × Entry) :=
  match m with
  | [] => [(k, v)]
  | kv :: rest => if kv.1 = k then (k, v) :: rest else kv :: mapInsert rest k v

/-- Capacity growth of the Go append builtin for the small slices used
here: the runtime doubles the old capacity, or takes the needed length
if that is larger. -/
def growCap (old need : Nat) : Nat := max (2 * old) need

/-- Go append of one code to a catalog slice, tracking capacity. -/
def goAppendCode (e : Entry) (c : Nat × Nat × Nat) : Entry :=
  if e.data.length < e.cap then ⟨e.data ++ [c], e.cap⟩
  else ⟨e.data ++ [c], growCap e.cap (e.data.length + 1)⟩

/-- handleRINEXVersion from the source: parse and validate the version
number, record it, and check the observation-data file marker. -/
def handleRINEXVersion (r : ObsReader) (value : List Nat) : M ObsReader := do
  let flt ← parseFloat (sub2 value 0 9) 32
  let v := goRound flt
  if v ≠ 2 ∧ v ≠ 3 then
    .error (.goError (strBytes "Invalid RINEX version " ++ sub2 value 0 9))
  else if getB value 20 ≠ 79 then
    .error (.goError (strBytes "Expected observation file, but got "))
  else .ok { r with version := v }

/-- handleEndOfHeader from the source. -/
def handleEndOfHeader (r : ObsReader) (_value : List Nat) : M ObsReader :=
  .ok { r with inHeader := false }

/-- handleTimeOfFirstObs from the source: RINEX 2 only, records the year. -/
def handleTimeOfFirstObs (r : ObsReader) (value : List Nat) : M ObsReader :=
  if r.version ≠ 2 then .ok r
  else do
    let y ← parseUint (sub2 value 0 6) 16
    .ok { r with year := y }

/-- Loop body of handleNumTypesOfObserv: read up to 9 observables from
fixed 6-column slots, stopping after an append that fills the slice to
its capacity. -/
def typesObservLoop (value : List Nat) : Entry → Nat → Nat → Entry
  | e, 0, _ => e
  | e, fuel+1, i =>
    let e2 := goAppendCode e (getB value (10+6*i), getB value (11+6*i), 32)
    if e2.data.length = e2.cap then e2
    else typesObservLoop value e2 fuel (i+1)

/-- handleNumTypesOfObserv from the source: RINEX 2 only; the first line
allocates the universal catalog with the declared capacity, every line
appends up to 9 codes. -/
def handleNumTypesOfObserv (r : ObsReader) (value : List Nat) : M ObsReader :=
  if r.version ≠ 2 then .ok r
  else do
    let r ← if r.Observations.length = 0 then do
        let count ← parseUint (sub2 value 0 6) 32
        pure { r with Observations := mapInsert r.Observations 32 ⟨[], count⟩ }
      else pure r
    .ok { r with Observations := mapInsert r.Observations 32 (typesObservLoop value (lookupD r.Observations 32) 9 0) }

/-- Loop body of handleSysNumObsTypes: read up to 13 observables from
fixed 4-column slots while the slice is below its capacity. -/
def sysTypesLoop (value : List Nat) : Entry → Nat → Nat → Entry
  | e, 0, _ => e
  | e, fuel+1, i =>
    if e.data.length < e.cap then
      sysTypesLoop value
        ⟨e.data ++ [(getB value (7+4*i), getB value (8+4*i), getB value (9+4*i))], e.cap⟩
        fuel (i+1)
    else e

/-- handleSysNumObsTypes from the source: RINEX 3 only; lastSystem tracks
which system declaration is in progress across continuation lines. -/
def handleSysNumObsTypes (r : ObsReader) (value : List Nat) : M ObsReader :=
  if r.version ≠ 3 then .ok r
  else do
    let p ← if r.lastSystem = 0 then do
        let count ← parseUint (sub2 value 3 6) 32
        pure ({ r with lastSystem := getB value 0 }, (⟨[], count⟩ : Entry))
      else pure (r, lookupD r.Observations r.lastSystem)
    let s2 := sysTypesLoop value p.2 13 0
    let r2 := { p.1 with Observations := mapInsert p.1.Observations p.1.lastSystem s2 }
    if s2.data.length = s2.cap then .ok { r2 with lastSystem := 0 }
    else .ok r2

/-- Labels the source treats specially (keys of the specialHeaders map). -/
def specialLabels : List (List Nat) :=
  [strBytes "RINEX VERSION / TYPE", strBytes "END OF HEADER       ",
   strBytes "TIME OF FIRST OBS   ", strBytes "# / TYPES OF OBSERV ",
   strBytes "SYS / # / OBS TYPES "]

/-- Dispatch on the specialHeaders map of the source. -/
def specialDispatch (r : ObsReader) (label value : List Nat) : M ObsReader :=
  if label = strBytes "RINEX VERSION / TYPE" then handleRINEXVersion r value
  else if label = strBytes "END OF HEADER       " then handleEndOfHeader r value
  else if label = strBytes "TIME OF FIRST OBS   " then handleTimeOfFirstObs r value
  else if label = strBytes "# / TYPES OF OBSERV " then handleNumTypesOfObserv r value
  else if label = strBytes "SYS / # / OBS TYPES " then handleSysNumObsTypes r value
  else .ok r

/-- handleHeader from the source: decrement the embedded-header counter,
split the 80-column frame into value and label, run a special handler
if the label is recognized, then call the header callback. -/
def handleHeader (r : ObsReader) (line : List Nat) : M (ObsReader × List Event) := do
  let r :=
    if 0 < r.count then
      let c := r.count - 1
      { r with count := c, inHeader := if c = 0 then false else r.inHeader }
    else r
  let value := sub2 line 0 60
  let label := sub2 line 60 80
  let r2 ← specialDispatch r label value
  .ok (r2, [Event.header label value])

/-- parseV2Epoch from the source: parse the date/time stamp of an
EPOCH/SAT or EVENT FLAG line.  When the designated column is blank and
the epoch flag is not 0 or 1, the six local fields stay at their zero
values and are still stored into the record.  The year continuity rule
advances the carried century when the observed two digits go backward;
uint16 arithmetic wraps modulo 65536. -/
def parseV2Epoch (r : ObsReader) (line : List Nat) (flag : Nat) : M ObsReader :=
  if getB line 2 ≠ 32 then do
    let year ← parseUint (sub2 line 1 3) 16
    let month ← parseUint (sub2 line 4 6) 8
    let day ← parseUint (sub2 line 7 9) 8
    let hour ← parseUint (sub2 line 10 12) 8
    let minute ← parseUint (sub2 line 13 15) 8
    let second ← parseFloat (sub2 line 15 26) 32
    let y1 := if year < r.year % 100 then (r.year + 100) % 65536 else r.year
    let y2 := (y1 / 100 * 100 + year) % 65536
    let rc := { r.obsRec with Year := y2, Month := month, Day := day, Hour := hour, Minute := minute, Second := second }
    .ok { r with year := y2, obsRec := rc }
  else if flag = 48 ∨ flag = 49 then
    .error (.goError (strBytes "RINEX 2 observation requires epoch: " ++ line))
  else
    .ok { r with obsRec := { r.obsRec with Year := 0, Month := 0, Day := 0, Hour := 0, Minute := 0, Second := 0 } }

/-- parseV2ObsIntro from the source: epoch flag at column 29, count at
columns 30-32, the epoch stamp, then either an immediate emission for
flags other than 0, 1, 6, or the clock offset and satellite-slice
preparation. -/
def parseV2ObsIntro (r : ObsReader) (line : List Nat) : M (ObsReader × List Event) := do
  let flag := getB line 28
  let r := { r with obsRec := { r.obsRec with EpochFlag := byteSub flag 48, Offset := 0, Sat := [] } }
  let count ← parseUint (sub2 line 29 32) 16
  let r := { r with count := count }
  let r ← parseV2Epoch r line flag
  if flag ≠ 48 ∧ flag ≠ 49 ∧ flag ≠ 54 then
    let r := { r with inHeader := decide (0 < r.count) }
    .ok (r, [Event.obs r.obsRec])
  else
    (if getB line 79 ≠ 32 then do
        let offset ← parseFloat (sub2 line 68 80) 64
        .ok { r with obsRec := { r.obsRec with Offset := offset } }
      else .ok r) >>= fun r =>
    .ok (if r.satCap < count then { r with satCap := count } else r, [])

/-- Loop body of parseV2PRNs: up to 12 three-column identifiers per line;
a blank third column ends the list (an error when the declared count is
not yet reached); extending the satellite slice past its capacity is a
runtime panic; a blank system letter defaults to G (byte 71). -/
def prnLoop (line : List Nat) (cnt scap : Nat) : List SVObservation → Nat → Nat → M (List SVObservation)
  | sat, 0, _ => .ok sat
  | sat, fuel+1, i =>
    let c2 := getB line (3*i+34)
    if c2 = 32 then
      if sat.length < cnt then .error (.goError (strBytes "PRN list terminated early"))
      else .ok sat
    else if scap < sat.length + 1 then
      .error (.goPanic (strBytes "runtime error: slice bounds out of range"))
    else
      let c0 := getB line (3*i+32)
      prnLoop line cnt scap (sat ++ [⟨(if c0 = 32 then 71 else c0, getB line (3*i+33), c2), []⟩]) fuel (i+1)

/-- parseV2PRNs from the source: read PRN identifiers, then move to the
observation state when the declared count is reached, otherwise expect
a continuation line. -/
def parseV2PRNs (r : ObsReader) (line : List Nat) : M ObsReader := do
  let sat ← prnLoop line r.count r.satCap r.obsRec.Sat 12 0
  if sat.length = r.count then
    .ok { r with obsRec := { r.obsRec with Sat := sat }, lastSystem := 2, prnIndex := 0, obsIndex := 0 }
  else
    .ok { r with obsRec := { r.obsRec with Sat := sat }, lastSystem := 1 }

/-- Go idiom of parseV2Observations: grow the observation slice with
zero entries until index n-1 exists. -/
def padObs (s : List Observation) (n : Nat) : List Observation :=
  s ++ List.replicate (n - s.length) ⟨0, 0, 0⟩

/-- Loop body of parseV2Observations: up to 5 sixteen-column fields; a
value is present only when the decimal point sits at column 11 of the
field; blank loss-of-lock and signal-strength columns give 0. -/
def obsFieldsLoop (line : List Nat) (obsIndex : Nat) (nObs : Int) : List Observation → Nat → Nat → M (List Observation)
  | s, 0, _ => .ok s
  | s, fuel+1, i =>
    if (i : Int) < nObs then do
      let value ← if getB line (16*i+10) = 46 then parseFloat (sub2 line (16*i) (16*i+14)) 64 else pure 0
      let lli := if getB line (16*i+14) ≠ 32 then byteSub (getB line (16*i+14)) 48 else 0
      let ss := if getB line (16*i+15) ≠ 32 then byteSub (getB line (16*i+15)) 48 else 0
      obsFieldsLoop line obsIndex nObs
        ((padObs s (obsIndex + i + 1)).set (obsIndex + i) ⟨value, lli, ss⟩) fuel (i+1)
    else .ok s

/-- parseV2Observations from the source: fill the observation fields of
the current satellite, advance the field cursor by 5, and emit the
record once the last satellite finishes its last observation. -/
def parseV2Observations (r : ObsReader) (line : List Nat) : M (ObsReader × List Event) :=
  match r.obsRec.Sat.get? r.prnIndex with
  | none => .error (.goPanic (strBytes "runtime error: index out of range"))
  | some sv =>
    obsFieldsLoop line r.obsIndex (((lookupD r.Observations 32).data.length : Int) - (r.obsIndex : Int)) sv.Obs 5 0 >>= fun s =>
    if (lookupD r.Observations 32).data.length ≤ (r.obsIndex + 5) % 65536 then
      if (r.prnIndex + 1) % 65536 = r.count then
        .ok ({ r with obsRec := { r.obsRec with Sat := r.obsRec.Sat.set r.prnIndex { sv with Obs := s } }, obsIndex := 0, prnIndex := 0, lastSystem := 0 }, [Event.obs { r.obsRec with Sat := r.obsRec.Sat.set r.prnIndex { sv with Obs := s } }])
      else
        .ok ({ r with obsRec := { r.obsRec with Sat := r.obsRec.Sat.set r.prnIndex { sv with Obs := s } }, obsIndex := 0, prnIndex := (r.prnIndex + 1) % 65536, lastSystem := 32 }, [])
    else
      .ok ({ r with obsRec := { r.obsRec with Sat := r.obsRec.Sat.set r.prnIndex { sv with Obs := s } }, obsIndex := (r.obsIndex + 5) % 65536, lastSystem := sv.PRN.1 }, [])

/-- parseV2 from the source: lastSystem doubles as the line-type state
(0 intro, 1 PRN continuation, 2 and above observation lines). -/
def parseV2 (r : ObsReader) (line : List Nat) : M (ObsReader × List Event) :=
  if r.lastSystem = 0 then do
    let p ← parseV2ObsIntro r line
    if p.1.obsRec.EpochFlag = 0 ∨ p.1.obsRec.EpochFlag = 1 ∨ p.1.obsRec.EpochFlag = 6 then do
      let r2 ← parseV2PRNs p.1 line
      .ok (r2, p.2)
    else .ok p
  else if r.lastSystem < 2 then do
    let r2 ← parseV2PRNs r line
    .ok (r2, [])
  else parseV2Observations r line

/-- parseV3Epoch from the source: like parseV2Epoch but with a four-digit
year at version-3 column offsets, on an unpadded line (slices carry the
runtime bounds checks). -/
def parseV3Epoch (r : ObsReader) (line : List Nat) (flag : Nat) : M ObsReader := do
  let c2 ← getChk line 2
  if c2 ≠ 32 then do
    let year ← parseUint (← subChk line 2 6) 16
    let month ← parseUint (← subChk line 7 9) 8
    let day ← parseUint (← subChk line 10 12) 8
    let hour ← parseUint (← subChk line 13 15) 8
    let minute ← parseUint (← subChk line 16 18) 8
    let second ← parseFloat (← subChk line 19 30) 32
    let rc := { r.obsRec with Year := year, Month := month, Day := day, Hour := hour, Minute := minute, Second := second }
    .ok { r with obsRec := rc }
  else if flag = 48 ∨ flag = 49 then
    .error (.goError (strBytes "RINEX 3 observation requires epoch: " ++ line))
  else
    .ok { r with obsRec := { r.obsRec with Year := 0, Month := 0, Day := 0, Hour := 0, Minute := 0, Second := 0 } }

/-- parseV3ObsIntro from the source: epoch flag at column 29, count at
columns 33-35, clock offset at columns 42-56 when the line is long
enough, with the same flag branching as version 2. -/
def parseV3ObsIntro (r : ObsReader) (line : List Nat) : M (ObsReader × List Event) := do
  let flag ← getChk line 28
  let r := { r with obsRec := { r.obsRec with EpochFlag := byteSub flag 48, Offset := 0, Sat := [] } }
  let count ← parseUint (← subChk line 32 35) 16
  let r := { r with count := count }
  let r ← parseV3Epoch r line flag
  if flag ≠ 48 ∧ flag ≠ 49 ∧ flag ≠ 54 then
    let r := { r with inHeader := decide (0 < r.count) }
    .ok (r, [Event.obs r.obsRec])
  else do
    let r ← if 56 ≤ line.length then do
        let offset ← parseFloat (sub2 line 41 56) 64
        pure { r with obsRec := { r.obsRec with Offset := offset } }
      else pure r
    let r := if r.satCap < count then { r with satCap := count } else r
    .ok (r, [])

/-- Loop body of the version-3 satellite line: one sixteen-column field
per catalog entry; each of the three sub-fields is read only when the
length test of the source passes, and the loss-of-lock and strength
bytes go through the runtime index check exactly as in the source
(whose length guards are one short of what the index needs). -/
def v3FieldsLoop (line : List Nat) : Nat → Nat → M (List Observation)
  | 0, _ => .ok []
  | fuel+1, i => do
    let value ← if 17 + 16*i ≤ line.length then parseFloat (sub2 line (3+16*i) (17+16*i)) 64 else pure 0
    let lli ← if 18 + 16*i ≤ line.length then do
        let c ← getChk line (18+16*i)
        pure (byteSub c 48)
      else pure 0
    let ss ← if 19 + 16*i ≤ line.length then do
        let c ← getChk line (19+16*i)
        pure (byteSub c 48)
      else pure 0
    let rest ← v3FieldsLoop line fuel (i+1)
    .ok (⟨value, lli, ss⟩ :: rest)

/-- parseV3 from the source: intro lines start with the sentinel byte 62;
satellite lines look up the per-system catalog by their first byte and
append one satellite record; no emission happens here. -/
def parseV3 (r : ObsReader) (line : List Nat) : M (ObsReader × List Event) := do
  let c0 ← getChk line 0
  if c0 = 62 then parseV3ObsIntro r line
  else
    match mapLookup r.Observations c0 with
    | none => .error (.goError (strBytes "Unexpected GNSS type: " ++ line))
    | some e => do
      if r.satCap < r.obsRec.Sat.length + 1 then
        .error (.goPanic (strBytes "runtime error: slice bounds out of range"))
      else do
        let prnBytes ← subChk line 0 3
        let obs ← v3FieldsLoop line e.data.length 0
        let sat := r.obsRec.Sat ++ [⟨(getB prnBytes 0, getB prnBytes 1, getB prnBytes 2), obs⟩]
        .ok ({ r with obsRec := { r.obsRec with Sat := sat } }, [])

/-- Line framing of Parse: in header mode or for version 2 the line is
padded with spaces to 80 columns, and longer lines are an error;
version-3 data lines pass through unpadded. -/
def frameLine (r : ObsReader) (raw : List Nat) : M (List Nat) :=
  if r.inHeader = true ∨ r.version = 2 then
    if 80 < raw.length then .error (.goError (strBytes "Oversized input line"))
    else .ok (raw ++ List.replicate (80 - raw.length) 32)
  else .ok raw

/-- One iteration of the scan loop of Parse: frame the line, then route
it by mode and version; an undeclared version on a data line is the
panic in the source. -/
def parseLine (r : ObsReader) (raw : List Nat) : M (ObsReader × List Event) := do
  let line ← frameLine r raw
  if r.inHeader = true then handleHeader r line
  else if r.version = 2 then parseV2 r line
  else if r.version = 3 then parseV3 r line
  else .error (.goPanic (strBytes "RINEX header did not declare its version"))

/-- The scan loop of Parse over a list of input lines, accumulating the
callback events; stream exhaustion is success. -/
def parseLines (r : ObsReader) : List (List Nat) → M (ObsReader × List Event)
  | [] => .ok (r, [])
  | raw :: rest => do
    let p ← parseLine r raw
    let q ← parseLines p.1 rest
    .ok (q.1, p.2 ++ q.2)

/-- Parse from the source: reset the mode, version, continuation marker
and catalog map, then run the scan loop. -/
def Parse (r : ObsReader) (input : List (List Nat)) : M (ObsReader × List Event) :=
  parseLines { r with inHeader := true, version := 0, lastSystem := 0, Observations := [] } input

/-- Zero observation record, for concrete test states. -/
def rec0 : ObservationRecord := ⟨0, 0, 0, 0, 0, 0, 0, 0, []⟩

/-- Zero reader state, for concrete test states. -/
def st0 : ObsReader := ⟨[], 0, 0, 0, 0, 0, false, 0, rec0, 0⟩

/-- Space padding of a given width. -/
def spaces (n : Nat) : List Nat := List.replicate n 32

/-- The 80-column frame Parse builds for header-mode and version-2 lines. -/
def pad80 (l : List Nat) : List Nat := l ++ List.replicate (80 - l.length) 32

/-- Label columns 61-80 of the frame of a raw line. -/
def labelOf (l : List Nat) : List Nat := sub2 (pad80 l) 60 80

/-- Value columns 1-60 of the frame of a raw line. -/
def valueOf (l : List Nat) : List Nat := sub2 (pad80 l) 0 60

/-- The header callback invocation produced for a raw line. -/
def headerEv (l : List Nat) : Event := .header (labelOf l) (valueOf l)

/-- Success test on the Go result channel. -/
def isOkB {α : Type} : M α → Bool
  | .ok _ => true
  | .error _ => false

/-- Concrete header line declaring RINEX version 2.11, observation data. -/
def lVer : List Nat := strBytes "     2.11           O" ++ spaces 39 ++ strBytes "RINEX VERSION / TYPE"

/-- Concrete header line declaring RINEX version 3.02, observation data. -/
def lVer3 : List Nat := strBytes "     3.02           O" ++ spaces 39 ++ strBytes "RINEX VERSION / TYPE"

/-- Concrete END OF HEADER line. -/
def lEnd : List Nat := spaces 60 ++ strBytes "END OF HEADER       "

/-- Concrete version-3 state with a one-code catalog for system G and
room for one satellite, as left by a suitable header. -/
def stG : ObsReader := { st0 with version := 3, Observations := [(71, ⟨[(67, 49, 67)], 1⟩)], satCap := 1 }

/-- Version-3 satellite line of length exactly 18: three-byte id, a full
fourteen-column value field, one extra blank. -/
def l18 : List Nat := strBytes "G01  20000000.000 "

/-- Version-3 satellite line of length 17: id plus value field only. -/
def l17 : List Nat := strBytes "G01  20000000.000"

/-- Version-3 satellite line of length 20 whose loss-of-lock column
(byte 19 of the line) is blank and whose strength column holds 7. -/
def l20 : List Nat := strBytes "G01  20000000.000  7"

/-- C9: there is an input whose header carries END OF HEADER but never a
version declaration; the first data line after the header makes Parse
panic with the message from the source instead of returning an error
value.  The model keeps Go panics and Go error returns in separate
constructors, so the statement distinguishes the two. -/
theorem c9_undeclared_version_panics :
    Parse st0 [lEnd, strBytes "x"] =
      .error (.goPanic (strBytes "RINEX header did not declare its version")) := rfl

/-- C6: the version-3 decoder does not survive every short satellite
line.  On a line of length exactly 18 (one blank beyond the first value
field) the length guard of the source admits the loss-of-lock read at
index 18, which is out of range: a runtime panic, not an absent-field
decode.  On a line of length 17 the trailing columns do decode as
absent (value kept, LLI 0, strength 0), which is the behavior the claim
expects for all short lines. -/
theorem c6_short_line_panics :
    parseV3 stG l18 = .error (.goPanic (strBytes "runtime error: index out of range")) ∧
    (parseV3 stG l17).map (fun p => p.1.obsRec.Sat) =
      .ok [⟨(71, 48, 49), [⟨20000000, 0, 0⟩]⟩] := ⟨rfl, rfl⟩

/-- C7: in the version-3 decoder a blank loss-of-lock column inside the
line does not give 0: byte subtraction of the ASCII codes wraps and
yields 240.  The line here has length 20 with a blank at index 18 and
the digit 7 at index 19; the decoded observation carries LLI 240.  The
version-2 decoder does map blank columns to 0: the second conjunct runs
a sixteen-column field with blank indicator columns through it. -/
theorem c7_blank_lli_not_zero :
    (parseV3 stG l20).map (fun p => p.1.obsRec.Sat) =
      .ok [⟨(71, 48, 49), [⟨20000000, 240, 7⟩]⟩] ∧
    (parseV2Observations { st0 with version := 2, Observations := [(32, ⟨[(80, 49, 32)], 1⟩)], count := 1, lastSystem := 2, obsRec := { rec0 with Sat := [⟨(71, 49, 50), []⟩] } } (pad80 (strBytes "  23629347.915"))).map (fun p => p.1.obsRec.Sat) =
      .ok [⟨(71, 49, 50), [⟨(⟨23629347915, 3⟩ : Dec), 0, 0⟩]⟩] := ⟨rfl, rfl⟩

@[simp] theorem mBind_ok {α β : Type} (a : α) (f : α → M β) :
    (Except.ok a : M α) >>= f = f a := rfl

@[simp] theorem mBind_err {α β : Type} (e : GoErr) (f : α → M β) :
    (Except.error e : M α) >>= f = .error e := rfl

@[simp] theorem mPure {α : Type} (a : α) : (pure a : M α) = .ok a := rfl

/-- Success of an M computation gives an ok value. -/
theorem isOkB_ex {α : Type} (x : M α) (h : isOkB x = true) : ∃ v, x = .ok v := by
  cases x with
  | ok v => exact ⟨v, rfl⟩
  | error e => simp [isOkB] at h

/-- Concrete version-2 data-mode state carrying the timestamp of a
previous epoch, used against the blank-date rule. -/
def stData : ObsReader :=
  { st0 with version := 2, year := 2005, obsRec := { rec0 with Year := 2005, Month := 3, Day := 24, Hour := 13, Minute := 10, Second := 36 } }

/-- Version-2 event-flag line with a blank date, flag 4 and count 0. -/
def blank4 : List Nat := spaces 28 ++ strBytes "4  0" ++ spaces 48

/-- Version-3 line of length 3 with a blank date column. -/
def blank4v3 : List Nat := strBytes ">" ++ spaces 2

/-- C3, counterexample: on a blank-date event line the delivered record
does not carry the previously recorded time-of-day fields: processing
the line from a state whose record holds year 2005 delivers a record
with every timestamp field equal to zero. -/
theorem c3_counterexample :
    (parseV2 stData blank4).map Prod.snd = .ok [Event.obs ⟨0, 0, 0, 0, 0, 4, 0, 0, []⟩] ∧
    stData.obsRec.Year = 2005 ∧
    (⟨0, 0, 0, 0, 0, 4, 0, 0, []⟩ : ObservationRecord).Year ≠ stData.obsRec.Year :=
  ⟨rfl, rfl, by decide⟩

/-- C3 as amended: for a blank date column and an epoch flag other than
0 and 1, both epoch assemblers succeed and overwrite all six timestamp
fields of the in-progress record with zero (the zero values of the
unparsed locals), rather than leaving them unchanged. -/
theorem c3_amended_blank_epoch_zeroes (r : ObsReader) (l2 l3 : List Nat) (f2 f3 : Nat)
    (hb2 : getB l2 2 = 32) (h20 : f2 ≠ 48) (h21 : f2 ≠ 49)
    (hlen : 2 < l3.length) (hb3 : getB l3 2 = 32) (h30 : f3 ≠ 48) (h31 : f3 ≠ 49) :
    parseV2Epoch r l2 f2 =
      .ok { r with obsRec := { r.obsRec with Year := 0, Month := 0, Day := 0, Hour := 0, Minute := 0, Second := 0 } } ∧
    parseV3Epoch r l3 f3 =
      .ok { r with obsRec := { r.obsRec with Year := 0, Month := 0, Day := 0, Hour := 0, Minute := 0, Second := 0 } } := by
  constructor
  · simp [parseV2Epoch, hb2, h20, h21]
  · have hb3' : l3.getD 2 0 = 32 := hb3
    unfold parseV3Epoch getChk
    rw [if_pos hlen]
    simp only [mBind_ok]
    rw [hb3']
    simp [h30, h31]

/-- C3 amended, witness at a concrete state and concrete blank-date
lines with flag 4. -/
theorem c3_amended_witness :
    parseV2Epoch stData blank4 52 =
      .ok { stData with obsRec := { stData.obsRec with Year := 0, Month := 0, Day := 0, Hour := 0, Minute := 0, Second := 0 } } ∧
    parseV3Epoch stData blank4v3 52 =
      .ok { stData with obsRec := { stData.obsRec with Year := 0, Month := 0, Day := 0, Hour := 0, Minute := 0, Second := 0 } } :=
  c3_amended_blank_epoch_zeroes stData blank4 blank4v3 52 52 (by decide) (by decide)
    (by decide) (by decide) (by decide) (by decide) (by decide)

/-- Version-2 PRN list line whose first three-column field is G blank 9. -/
def prnLine : List Nat := spaces 32 ++ strBytes "G 9" ++ spaces 45

/-- C8, counterexample: the PRN field G blank 9 is stored verbatim as
the bytes (71, 32, 57), not as G09 = (71, 48, 57): no character inside
the identifier is substituted. -/
theorem c8_counterexample :
    (parseV2PRNs { st0 with count := 1, satCap := 1 } prnLine).map (fun r2 => r2.obsRec.Sat) =
      .ok [⟨(71, 32, 57), []⟩] ∧
    ((71, 32, 57) : Nat × Nat × Nat) ≠ (71, 48, 57) :=
  ⟨rfl, by decide⟩

/-- C8 as amended: a three-column PRN field with a non-blank third
column is stored verbatim, the single exception being the system
letter, which is replaced by G exactly when the first column is blank. -/
theorem c8_amended_prn_verbatim (r : ObsReader) (line : List Nat) (c0 c1 c2 : Nat)
    (e0 : getB line 32 = c0) (e1 : getB line 33 = c1) (e2 : getB line 34 = c2)
    (e3 : getB line 37 = 32) (h2 : c2 ≠ 32) :
    (parseV2PRNs { r with count := 1, satCap := 1, obsRec := { r.obsRec with Sat := [] } } line).map
        (fun r2 => (r2.obsRec.Sat, r2.lastSystem)) =
      .ok ([⟨(if c0 = 32 then 71 else c0, c1, c2), []⟩], 2) := by
  unfold parseV2PRNs
  unfold prnLoop
  simp only [show (3 * 0 + 34) = 34 from rfl, show (3 * 0 + 32) = 32 from rfl,
    show (3 * 0 + 33) = 33 from rfl, e0, e1, e2]
  rw [if_neg h2]
  simp only [List.length_nil, Nat.lt_irrefl, if_false, List.nil_append]
  unfold prnLoop
  simp only [show (3 * 1 + 34) = 37 from rfl, e3, if_pos rfl]
  simp [Except.map]

/-- C8 amended, witness at the concrete field G blank 9: the stored
identifier is the bytes (71, 32, 57). -/
theorem c8_amended_witness :
    (parseV2PRNs { st0 with count := 1, satCap := 1, obsRec := { st0.obsRec with Sat := [] } } prnLine).map
        (fun r2 => (r2.obsRec.Sat, r2.lastSystem)) =
      .ok ([⟨(if (71 : Nat) = 32 then 71 else 71, 32, 57), []⟩], 2) :=
  c8_amended_prn_verbatim st0 prnLine 71 32 57 rfl rfl rfl rfl (by decide)

/-- First catalog line of the C4 scenario: declares 5 codes, lists only
L1 L2 C1 (60 value columns). -/
def c4v1 : List Nat := strBytes "     5    L1    L2    C1" ++ spaces 36

/-- Second catalog line of the C4 scenario: lists P1 P2 in the fixed
slots of a continuation line. -/
def c4v2 : List Nat := spaces 10 ++ strBytes "P1    P2" ++ spaces 42

/-- C4, counterexample: a version-2 catalog declaration of 5 codes
spread over two lines does not produce five entries.  The first line
already pads the catalog to its declared capacity with blank codes, and
the second line appends past the declared count (Go append growth), so
the universal entry ends with ten entries, not the five declared codes
in order. -/
theorem c4_counterexample :
    (do
      let a ← handleNumTypesOfObserv { st0 with version := 2 } c4v1
      let b ← handleNumTypesOfObserv a c4v2
      pure (lookupD b.Observations 32) : M Entry) =
      .ok ⟨[(76, 49, 32), (76, 50, 32), (67, 49, 32), (32, 32, 32), (32, 32, 32), (80, 49, 32), (80, 50, 32), (32, 32, 32), (32, 32, 32), (32, 32, 32)], 10⟩ ∧
    ([(76, 49, 32), (76, 50, 32), (67, 49, 32), (32, 32, 32), (32, 32, 32), (80, 49, 32), (80, 50, 32), (32, 32, 32), (32, 32, 32), (32, 32, 32)] : List (Nat × Nat × Nat)) ≠
      [(76, 49, 32), (76, 50, 32), (67, 49, 32), (80, 49, 32), (80, 50, 32)] :=
  ⟨rfl, by decide⟩

/-- C4 as amended: a version-2 catalog declaration whose 5 codes all
stand on one line produces the universal entry with exactly those five
codes in declared order, appending stopping as soon as the declared
count is reached (the remaining four slots of the line, x10 through
x17, do not contribute). -/
theorem c4_amended_single_line (r : ObsReader) (value : List Nat)
    (x0 x1 x2 x3 x4 x5 x6 x7 x8 x9 : Nat)
    (hcnt : parseUint (sub2 value 0 6) 32 = .ok 5)
    (h0 : getB value 10 = x0) (h1 : getB value 11 = x1)
    (h2 : getB value 16 = x2) (h3 : getB value 17 = x3)
    (h4 : getB value 22 = x4) (h5 : getB value 23 = x5)
    (h6 : getB value 28 = x6) (h7 : getB value 29 = x7)
    (h8 : getB value 34 = x8) (h9 : getB value 35 = x9) :
    handleNumTypesOfObserv { r with version := 2, Observations := [] } value =
      .ok { r with version := 2,
                   Observations := [(32, ⟨[(x0, x1, 32), (x2, x3, 32), (x4, x5, 32), (x6, x7, 32), (x8, x9, 32)], 5⟩)] } := by
  simp [handleNumTypesOfObserv, typesObservLoop, goAppendCode, lookupD, mapLookup, mapInsert,
    hcnt, h0, h1, h2, h3, h4, h5, h6, h7, h8, h9]

/-- C4 amended, witness: the five codes P1 L1 L2 P2 L5 declared on one
line produce exactly those five entries. -/
theorem c4_amended_witness :
    handleNumTypesOfObserv { st0 with version := 2, Observations := [] }
        (strBytes "     5    P1    L1    L2    P2    L5" ++ spaces 24) =
      .ok { st0 with version := 2,
                     Observations := [(32, ⟨[(80, 49, 32), (76, 49, 32), (76, 50, 32), (80, 50, 32), (76, 53, 32)], 5⟩)] } :=
  c4_amended_single_line st0 (strBytes "     5    P1    L1    L2    P2    L5" ++ spaces 24)
    80 49 76 49 76 50 80 50 76 53 rfl rfl rfl rfl rfl rfl rfl rfl rfl rfl rfl

/-- Lookup after insert at the same key. -/
theorem mapLookup_insert (m : List (Nat × Entry)) (k : Nat) (v : Entry) :
    mapLookup (mapInsert m k v) k = some v := by
  induction m with
  | nil => simp [mapInsert, mapLookup]
  | cons kv rest ih =>
    by_cases h : kv.1 = k
    · simp [mapInsert, mapLookup, h]
    · simp [mapInsert, mapLookup, h, ih]

/-- Lookup after insert at a different key. -/
theorem mapLookup_insert_ne (m : List (Nat × Entry)) (k q : Nat) (v : Entry) (h : q ≠ k) :
    mapLookup (mapInsert m k v) q = mapLookup m q := by
  induction m with
  | nil => simp [mapInsert, mapLookup, Ne.symm h]
  | cons kv rest ih =>
    by_cases hk : kv.1 = k
    · subst hk
      simp [mapInsert, mapLookup, Ne.symm h]
    · simp [mapInsert, mapLookup, hk, ih]

/-- First catalog line of the C5 scenario: system G declares 18 codes,
13 on this line (60 value columns). -/
def c5v1 : List Nat := strBytes "G   18 C1C L1C D1C S1C C1W S1W C2W L2W D2W S2W C2L L2L D2L " ++ spaces 1

/-- Second catalog line of the C5 scenario: the remaining 5 codes in
continuation slots. -/
def c5v2 : List Nat := spaces 7 ++ strBytes "S2L C5Q L5Q D5Q S5Q" ++ spaces 34

/-- The first 13 codes of the C5 declaration, as byte triples. -/
def c5codes13 : List (Nat × Nat × Nat) :=
  [(67, 49, 67), (76, 49, 67), (68, 49, 67), (83, 49, 67), (67, 49, 87), (83, 49, 87), (67, 50, 87), (76, 50, 87), (68, 50, 87), (83, 50, 87), (67, 50, 76), (76, 50, 76), (68, 50, 76)]

/-- All 18 codes of the C5 declaration, in declared order. -/
def c5codes : List (Nat × Nat × Nat) :=
  c5codes13 ++ [(83, 50, 76), (67, 53, 81), (76, 53, 81), (68, 53, 81), (83, 53, 81)]

/-- Continuation form of handleSysNumObsTypes: with a declaration in
progress (lastSystem not 0) the handler extends the entry of that
system, clearing lastSystem when the entry reaches its capacity. -/
theorem handleSysNumObsTypes_cont (r : ObsReader) (value : List Nat) (sys : Nat) (e : Entry)
    (hv : r.version = 3) (hls0 : r.lastSystem = sys) (hls : sys ≠ 0)
    (he : lookupD r.Observations sys = e) :
    handleSysNumObsTypes r value =
      (if (sysTypesLoop value e 13 0).data.length = (sysTypesLoop value e 13 0).cap then
        .ok { r with Observations := mapInsert r.Observations sys (sysTypesLoop value e 13 0), lastSystem := 0 }
      else .ok { r with Observations := mapInsert r.Observations sys (sysTypesLoop value e 13 0) }) := by
  subst hls0
  subst he
  unfold handleSysNumObsTypes
  rw [if_neg (by simp [hv]), if_neg hls]
  rfl

set_option maxHeartbeats 4000000 in
/-- C5: a version-3 declaration of 18 codes for system G across two
header lines yields exactly the 18 declared codes, in order, under
catalog key G (byte 71), finishes the in-progress declaration
(lastSystem back to 0), and leaves the catalog entry of every other
system unchanged. -/
theorem c5_sys_obs_types_catalog (r : ObsReader) :
    ∃ r1 r2,
      handleSysNumObsTypes { r with version := 3, lastSystem := 0 } c5v1 = .ok r1 ∧
      handleSysNumObsTypes r1 c5v2 = .ok r2 ∧
      mapLookup r2.Observations 71 = some ⟨c5codes, 18⟩ ∧
      r2.lastSystem = 0 ∧
      ∀ k, k ≠ 71 → mapLookup r2.Observations k = mapLookup r.Observations k := by
  have hl : lookupD (mapInsert r.Observations 71 (⟨c5codes13, 18⟩ : Entry)) 71 = ⟨c5codes13, 18⟩ := by
    simp [lookupD, mapLookup_insert]
  refine ⟨{ r with version := 3, lastSystem := 71, Observations := mapInsert r.Observations 71 ⟨c5codes13, 18⟩ }, { r with version := 3, lastSystem := 0, Observations := mapInsert (mapInsert r.Observations 71 ⟨c5codes13, 18⟩) 71 ⟨c5codes, 18⟩ }, ?_, ?_, ?_, rfl, ?_⟩
  · rfl
  · rw [handleSysNumObsTypes_cont _ c5v2 71 ⟨c5codes13, 18⟩ rfl rfl (by decide) hl]
    rfl
  · exact mapLookup_insert _ _ _
  · intro k hk
    rw [mapLookup_insert_ne _ _ _ _ hk, mapLookup_insert_ne _ _ _ _ hk]

/-- C5, witness at a concrete state that already has a catalog entry
for GLONASS (system R, byte 82). -/
theorem c5_witness :
    ∃ r1 r2,
      handleSysNumObsTypes { { st0 with Observations := [(82, ⟨[(67, 49, 67)], 1⟩)] } with version := 3, lastSystem := 0 } c5v1 = .ok r1 ∧
      handleSysNumObsTypes r1 c5v2 = .ok r2 ∧
      mapLookup r2.Observations 71 = some ⟨c5codes, 18⟩ ∧
      r2.lastSystem = 0 ∧
      ∀ k, k ≠ 71 → mapLookup r2.Observations k = mapLookup ({ st0 with Observations := [(82, ⟨[(67, 49, 67)], 1⟩)] } : ObsReader).Observations k :=
  c5_sys_obs_types_catalog { st0 with Observations := [(82, ⟨[(67, 49, 67)], 1⟩)] }

/-- Destructor for a successful monadic bind. -/
theorem bind_eq_ok {α β : Type} {x : M α} {f : α → M β} {b : β}
    (h : x >>= f = .ok b) : ∃ a, x = .ok a ∧ f a = .ok b := by
  cases x with
  | ok a => exact ⟨a, rfl, h⟩
  | error e => rw [mBind_err] at h; exact absurd h (by simp)

/-- Decidable success of the five non-year timestamp fields of a
version-2 epoch line. -/
def v2EpochFieldsOk (line : List Nat) : Bool :=
  isOkB (parseUint (sub2 line 4 6) 8) && isOkB (parseUint (sub2 line 7 9) 8) &&
  isOkB (parseUint (sub2 line 10 12) 8) && isOkB (parseUint (sub2 line 13 15) 8) &&
  isOkB (parseFloat (sub2 line 15 26) 32)

/-- C2: version-2 two-digit-year continuity.  Whenever the observed
two-digit year y is numerically below the low two digits of the carried
year, the carried century is advanced by 100 before combining (with
uint16 wrap-around), and in particular a carried year of 2005 with
y below 5 produces the epoch year 2100 + y, never 2005 + y. -/
theorem c2_two_digit_year_rollover (r : ObsReader) (line : List Nat) (flag y : Nat)
    (hblank : getB line 2 ≠ 32)
    (hy : parseUint (sub2 line 1 3) 16 = .ok y)
    (hlt : y < r.year % 100)
    (hok : v2EpochFieldsOk line = true) :
    ∃ r2, parseV2Epoch r line flag = .ok r2 ∧
      r2.year = (((r.year + 100) % 65536) / 100 * 100 + y) % 65536 ∧
      r2.obsRec.Year = r2.year ∧
      (r.year = 2005 → r2.obsRec.Year = 2100 + y ∧ r2.obsRec.Year ≠ 2005 + y) := by
  simp only [v2EpochFieldsOk, Bool.and_eq_true] at hok
  obtain ⟨⟨⟨⟨hm, hd⟩, hh⟩, hmin⟩, hs⟩ := hok
  obtain ⟨mo, hmo⟩ := isOkB_ex _ hm
  obtain ⟨dy, hdy⟩ := isOkB_ex _ hd
  obtain ⟨ho, hho⟩ := isOkB_ex _ hh
  obtain ⟨mi, hmi⟩ := isOkB_ex _ hmin
  obtain ⟨se, hse⟩ := isOkB_ex _ hs
  refine ⟨{ r with year := (((r.year + 100) % 65536) / 100 * 100 + y) % 65536, obsRec := { r.obsRec with Year := (((r.year + 100) % 65536) / 100 * 100 + y) % 65536, Month := mo, Day := dy, Hour := ho, Minute := mi, Second := se } }, ?_, rfl, rfl, ?_⟩
  · unfold parseV2Epoch
    rw [if_pos hblank]
    simp only [hy, hmo, hdy, hho, hmi, hse, mBind_ok]
    rw [if_pos hlt]
  · intro h2005
    rw [h2005] at hlt
    constructor
    · show (((r.year + 100) % 65536) / 100 * 100 + y) % 65536 = 2100 + y
      rw [h2005]
      omega
    · show (((r.year + 100) % 65536) / 100 * 100 + y) % 65536 ≠ 2005 + y
      rw [h2005]
      omega

/-- Concrete version-2 epoch line with two-digit year 04. -/
def epochLine : List Nat := strBytes " 04  1  2  3  4  5.0000000" ++ spaces 54

/-- C2, witness: carried year 2005 and observed year 04 give 2104. -/
theorem c2_witness :
    ∃ r2, parseV2Epoch { st0 with year := 2005 } epochLine 48 = .ok r2 ∧
      r2.year = 2104 ∧ r2.obsRec.Year = 2104 ∧ r2.obsRec.Year ≠ 2009 := by
  obtain ⟨r2, h1, h2, h3, h4⟩ :=
    c2_two_digit_year_rollover { st0 with year := 2005 } epochLine 48 4 (by decide) rfl (by decide) rfl
  obtain ⟨h5, h6⟩ := h4 rfl
  exact ⟨r2, h1, h2, h3.trans h2, h6⟩

/-- Labels outside the special table leave the reader state unchanged. -/
theorem specialDispatch_not_special (r : ObsReader) (label value : List Nat)
    (h : label ∉ specialLabels) : specialDispatch r label value = .ok r := by
  simp only [specialLabels, List.mem_cons, List.not_mem_nil, or_false, not_or] at h
  obtain ⟨h1, h2, h3, h4, h5⟩ := h
  simp [specialDispatch, h1, h2, h3, h4, h5]

/-- One header-mode line during embedded-header routing: the counter
decrements, the line is forwarded to the header callback, and the mode
drops back to data exactly when the counter reaches zero. -/
theorem headerLineStep (r : ObsReader) (l : List Nat)
    (hin : r.inHeader = true) (hcnt : 0 < r.count) (hlen : l.length ≤ 80)
    (hlab : labelOf l ∉ specialLabels) :
    parseLine r l = .ok ({ r with count := r.count - 1, inHeader := if r.count - 1 = 0 then false else r.inHeader }, [headerEv l]) := by
  unfold parseLine frameLine
  rw [if_pos (Or.inl hin), if_neg (by omega : ¬ 80 < l.length)]
  simp only [mBind_ok]
  rw [if_pos hin]
  unfold handleHeader
  rw [if_pos hcnt]
  have hlab2 : sub2 (l ++ List.replicate (80 - l.length) 32) 60 80 ∉ specialLabels := hlab
  simp only [specialDispatch_not_special _ _ _ hlab2, mBind_ok]
  rfl

/-- Embedded-header routing: from header mode with a positive counter
equal to the number of remaining lines, none of which carries a special
label, every line goes to the header callback and the mode returns to
data after the last one. -/
theorem headerPhaseRun (ls : List (List Nat)) : ∀ r : ObsReader,
    r.inHeader = true → r.count = ls.length → 0 < ls.length →
    (∀ l ∈ ls, l.length ≤ 80 ∧ labelOf l ∉ specialLabels) →
    parseLines r ls = .ok ({ r with count := 0, inHeader := false }, ls.map headerEv) := by
  induction ls with
  | nil => intro r _ _ h0 _; exact absurd h0 (lt_irrefl 0)
  | cons l ls ih =>
    intro r hin hcnt _ hgood
    obtain ⟨hlen, hlab⟩ := hgood l (by simp)
    have hstep := headerLineStep r l hin (by omega) hlen hlab
    unfold parseLines
    rw [hstep]
    simp only [mBind_ok]
    rcases Nat.eq_zero_or_pos ls.length with h0 | hpos
    · have hnil : ls = [] := List.eq_nil_of_length_eq_zero h0
      subst hnil
      simp only [parseLines]
      rw [hcnt]
      simp [hin]
    · have hst1 : ({ r with count := r.count - 1, inHeader := if r.count - 1 = 0 then false else r.inHeader } : ObsReader) = { r with count := ls.length, inHeader := true } := by
        rw [hcnt, hin]
        simp only [List.length_cons, Nat.add_sub_cancel]
        rw [if_neg (by omega)]
      rw [hst1, ih _ rfl rfl hpos (fun x hx => hgood x (by simp [hx]))]
      rfl

/-- Decidable success of all timestamp fields of a version-2 epoch
line, the blank-date case needing none. -/
def v2EpochOkB (line : List Nat) : Bool :=
  if getB line 2 = 32 then true
  else isOkB (parseUint (sub2 line 1 3) 16) && v2EpochFieldsOk line

/-- Frame conditions of parseV2Epoch: any successful run changes at
most the carried year and the timestamp fields of the record. -/
theorem parseV2Epoch_frame (r : ObsReader) (line : List Nat) (flag : Nat) (r2 : ObsReader)
    (h : parseV2Epoch r line flag = .ok r2) :
    r2.count = r.count ∧ r2.inHeader = r.inHeader ∧ r2.version = r.version ∧
    r2.lastSystem = r.lastSystem ∧ r2.Observations = r.Observations ∧ r2.satCap = r.satCap ∧
    r2.obsRec.Sat = r.obsRec.Sat ∧ r2.obsRec.EpochFlag = r.obsRec.EpochFlag ∧
    r2.obsRec.Offset = r.obsRec.Offset := by
  unfold parseV2Epoch at h
  split at h
  · obtain ⟨yv, h1, h⟩ := bind_eq_ok h
    obtain ⟨mo, h2, h⟩ := bind_eq_ok h
    obtain ⟨dy, h3, h⟩ := bind_eq_ok h
    obtain ⟨ho, h4, h⟩ := bind_eq_ok h
    obtain ⟨mi, h5, h⟩ := bind_eq_ok h
    obtain ⟨se, h6, h⟩ := bind_eq_ok h
    cases h
    exact ⟨rfl, rfl, rfl, rfl, rfl, rfl, rfl, rfl, rfl⟩
  · split at h
    · simp at h
    · cases h
      exact ⟨rfl, rfl, rfl, rfl, rfl, rfl, rfl, rfl, rfl⟩

/-- Success of parseV2Epoch under the decidable field condition, for an
epoch flag that does not require a timestamp. -/
theorem parseV2Epoch_isOk (r : ObsReader) (line : List Nat) (flag : Nat)
    (hna : flag ≠ 48) (hnb : flag ≠ 49) (hok : v2EpochOkB line = true) :
    ∃ r2, parseV2Epoch r line flag = .ok r2 := by
  unfold v2EpochOkB at hok
  refine isOkB_ex _ ?_
  by_cases hb : getB line 2 = 32
  · unfold parseV2Epoch
    rw [if_neg (by simp [hb]), if_neg (by simp [hna, hnb])]
    rfl
  · rw [if_neg hb] at hok
    simp only [Bool.and_eq_true, v2EpochFieldsOk] at hok
    obtain ⟨hy, ⟨⟨⟨hm, hd⟩, hh⟩, hmi⟩, hs⟩ := hok
    obtain ⟨yv, hyv⟩ := isOkB_ex _ hy
    obtain ⟨mo, hmo⟩ := isOkB_ex _ hm
    obtain ⟨dy, hdy⟩ := isOkB_ex _ hd
    obtain ⟨ho, hho⟩ := isOkB_ex _ hh
    obtain ⟨mi, hmi2⟩ := isOkB_ex _ hmi
    obtain ⟨se, hse⟩ := isOkB_ex _ hs
    unfold parseV2Epoch
    rw [if_pos hb]
    simp only [hyv, hmo, hdy, hho, hmi2, hse, mBind_ok]
    rfl

/-- Decidable success of all timestamp fields of a version-3 epoch
line, the blank-date case needing none. -/
def v3EpochOkB (line : List Nat) : Bool :=
  if getB line 2 = 32 then true
  else isOkB (parseUint (sub2 line 2 6) 16) && isOkB (parseUint (sub2 line 7 9) 8) &&
    isOkB (parseUint (sub2 line 10 12) 8) && isOkB (parseUint (sub2 line 13 15) 8) &&
    isOkB (parseUint (sub2 line 16 18) 8) && isOkB (parseFloat (sub2 line 19 30) 32)

/-- Frame conditions of parseV3Epoch: any successful run changes at
most the timestamp fields of the record. -/
theorem parseV3Epoch_frame (r : ObsReader) (line : List Nat) (flag : Nat) (r2 : ObsReader)
    (h : parseV3Epoch r line flag = .ok r2) :
    r2.count = r.count ∧ r2.inHeader = r.inHeader ∧ r2.version = r.version ∧
    r2.lastSystem = r.lastSystem ∧ r2.Observations = r.Observations ∧ r2.satCap = r.satCap ∧
    r2.obsRec.Sat = r.obsRec.Sat ∧ r2.obsRec.EpochFlag = r.obsRec.EpochFlag ∧
    r2.obsRec.Offset = r.obsRec.Offset ∧ r2.year = r.year := by
  unfold parseV3Epoch at h
  obtain ⟨c2, h0, h⟩ := bind_eq_ok h
  split at h
  · obtain ⟨s1, hs1, h⟩ := bind_eq_ok h
    obtain ⟨yv, h1, h⟩ := bind_eq_ok h
    obtain ⟨s2, hs2, h⟩ := bind_eq_ok h
    obtain ⟨mo, h2, h⟩ := bind_eq_ok h
    obtain ⟨s3, hs3, h⟩ := bind_eq_ok h
    obtain ⟨dy, h3, h⟩ := bind_eq_ok h
    obtain ⟨s4, hs4, h⟩ := bind_eq_ok h
    obtain ⟨ho, h4, h⟩ := bind_eq_ok h
    obtain ⟨s5, hs5, h⟩ := bind_eq_ok h
    obtain ⟨mi, h5, h⟩ := bind_eq_ok h
    obtain ⟨s6, hs6, h⟩ := bind_eq_ok h
    obtain ⟨se, h6, h⟩ := bind_eq_ok h
    cases h
    exact ⟨rfl, rfl, rfl, rfl, rfl, rfl, rfl, rfl, rfl, rfl⟩
  · split at h
    · simp at h
    · cases h
      exact ⟨rfl, rfl, rfl, rfl, rfl, rfl, rfl, rfl, rfl, rfl⟩

/-- Success of parseV3Epoch on a line of length at least 30 under the
decidable field condition, for an epoch flag that does not require a
timestamp. -/
theorem parseV3Epoch_isOk (r : ObsReader) (line : List Nat) (flag : Nat)
    (hlen : 30 ≤ line.length) (hna : flag ≠ 48) (hnb : flag ≠ 49) (hok : v3EpochOkB line = true) :
    ∃ r2, parseV3Epoch r line flag = .ok r2 := by
  unfold v3EpochOkB at hok
  have hg : getChk line 2 = .ok (getB line 2) := by
    unfold getChk
    rw [if_pos (by omega)]
    rfl
  have hs1 : subChk line 2 6 = .ok (sub2 line 2 6) := by unfold subChk; rw [if_pos (by omega)]
  have hs2 : subChk line 7 9 = .ok (sub2 line 7 9) := by unfold subChk; rw [if_pos (by omega)]
  have hs3 : subChk line 10 12 = .ok (sub2 line 10 12) := by unfold subChk; rw [if_pos (by omega)]
  have hs4 : subChk line 13 15 = .ok (sub2 line 13 15) := by unfold subChk; rw [if_pos (by omega)]
  have hs5 : subChk line 16 18 = .ok (sub2 line 16 18) := by unfold subChk; rw [if_pos (by omega)]
  have hs6 : subChk line 19 30 = .ok (sub2 line 19 30) := by unfold subChk; rw [if_pos (by omega)]
  refine isOkB_ex _ ?_
  by_cases hb : getB line 2 = 32
  · unfold parseV3Epoch
    rw [hg]
    simp only [mBind_ok]
    rw [if_neg (by simp [hb]), if_neg (by simp [hna, hnb])]
    rfl
  · rw [if_neg hb] at hok
    simp only [Bool.and_eq_true] at hok
    obtain ⟨⟨⟨⟨⟨hy, hm⟩, hd⟩, hh⟩, hmi⟩, hs⟩ := hok
    obtain ⟨yv, hyv⟩ := isOkB_ex _ hy
    obtain ⟨mo, hmo⟩ := isOkB_ex _ hm
    obtain ⟨dy, hdy⟩ := isOkB_ex _ hd
    obtain ⟨ho, hho⟩ := isOkB_ex _ hh
    obtain ⟨mi, hmi2⟩ := isOkB_ex _ hmi
    obtain ⟨se, hse⟩ := isOkB_ex _ hs
    unfold parseV3Epoch
    rw [hg]
    simp only [mBind_ok]
    rw [if_pos hb]
    simp only [hs1, hs2, hs3, hs4, hs5, hs6, hyv, hmo, hdy, hho, hmi2, hse, mBind_ok]
    rfl

/-- Version-2 intro line with a special epoch flag (bytes 50 to 53,
digits 2 to 5): the record is emitted at once with an empty satellite
list, the line count is stored, and header mode is entered. -/
theorem parseV2ObsIntro_special (r : ObsReader) (line : List Nat) (N : Nat)
    (hf1 : 50 ≤ getB line 28) (hf2 : getB line 28 ≤ 53)
    (hcnt : parseUint (sub2 line 29 32) 16 = .ok N) (hN : 0 < N)
    (hep : v2EpochOkB line = true) :
    ∃ r4, parseV2ObsIntro r line = .ok (r4, [Event.obs r4.obsRec]) ∧
      r4.obsRec.Sat = [] ∧ r4.obsRec.EpochFlag = byteSub (getB line 28) 48 ∧
      r4.inHeader = true ∧ r4.count = N ∧ r4.version = r.version ∧
      r4.lastSystem = r.lastSystem ∧ r4.Observations = r.Observations := by
  obtain ⟨r3, hep3⟩ := parseV2Epoch_isOk
    { { r with obsRec := { r.obsRec with EpochFlag := byteSub (getB line 28) 48, Offset := 0, Sat := [] } } with count := N }
    line (getB line 28) (by omega) (by omega) hep
  obtain ⟨hc, hih, hver, hls, hobs, hcap, hsat, hflag, hoff⟩ := parseV2Epoch_frame _ _ _ _ hep3
  refine ⟨{ r3 with inHeader := decide (0 < r3.count) }, ?_, hsat, hflag, ?_, hc, hver, hls, hobs⟩
  · unfold parseV2ObsIntro
    simp only [hcnt, mBind_ok]
    rw [hep3]
    simp only [mBind_ok]
    rw [if_pos ⟨by omega, by omega, by omega⟩]
  · show decide (0 < r3.count) = true
    rw [show r3.count = N from hc]
    exact decide_eq_true hN

/-- Version-3 intro line with a special epoch flag: same behavior as
version 2, at the version-3 column offsets, on an unpadded line of
length at least 35. -/
theorem parseV3ObsIntro_special (r : ObsReader) (line : List Nat) (N : Nat)
    (hlen : 35 ≤ line.length)
    (hf1 : 50 ≤ getB line 28) (hf2 : getB line 28 ≤ 53)
    (hcnt : parseUint (sub2 line 32 35) 16 = .ok N) (hN : 0 < N)
    (hep : v3EpochOkB line = true) :
    ∃ r4, parseV3ObsIntro r line = .ok (r4, [Event.obs r4.obsRec]) ∧
      r4.obsRec.Sat = [] ∧ r4.obsRec.EpochFlag = byteSub (getB line 28) 48 ∧
      r4.inHeader = true ∧ r4.count = N ∧ r4.version = r.version ∧
      r4.lastSystem = r.lastSystem ∧ r4.Observations = r.Observations := by
  have hg28 : getChk line 28 = .ok (getB line 28) := by
    unfold getChk
    rw [if_pos (by omega)]
    rfl
  have hsc : subChk line 32 35 = .ok (sub2 line 32 35) := by
    unfold subChk
    rw [if_pos (by omega)]
  obtain ⟨r3, hep3⟩ := parseV3Epoch_isOk
    { { r with obsRec := { r.obsRec with EpochFlag := byteSub (getB line 28) 48, Offset := 0, Sat := [] } } with count := N }
    line (getB line 28) (by omega) (by omega) (by omega) hep
  obtain ⟨hc, hih, hver, hls, hobs, hcap, hsat, hflag, hoff, hyr⟩ := parseV3Epoch_frame _ _ _ _ hep3
  refine ⟨{ r3 with inHeader := decide (0 < r3.count) }, ?_, hsat, hflag, ?_, hc, hver, hls, hobs⟩
  · unfold parseV3ObsIntro
    rw [hg28]
    simp only [mBind_ok]
    rw [hsc]
    simp only [mBind_ok]
    simp only [hcnt, mBind_ok]
    rw [hep3]
    simp only [mBind_ok]
    rw [if_pos ⟨by omega, by omega, by omega⟩]
  · show decide (0 < r3.count) = true
    rw [show r3.count = N from hc]
    exact decide_eq_true hN

/-- Version-2 event-flag line: blank date, flag 4, count 2. -/
def intro42 : List Nat := spaces 28 ++ strBytes "4  2" ++ spaces 48

/-- Version-3 event-flag line: sentinel, blank date, flag 4, count 2. -/
def v3intro4 : List Nat := strBytes ">" ++ spaces 27 ++ strBytes "4" ++ spaces 3 ++ strBytes "  2"

/-- A COMMENT header line (not a special label). -/
def com1 : List Nat := strBytes "hello" ++ spaces 55 ++ strBytes "COMMENT             "

/-- Header-callback test on an event. -/
def isHeaderEv : Event → Bool
  | .header _ _ => true
  | .obs _ => false

/-- C1, counterexample: a flag-4 intro declaring 2 following lines does
not always route exactly 2 lines to the header callback.  Here the
first embedded line carries the END OF HEADER label, whose handler
leaves header mode at once; the second line is then parsed as data and
delivered to the observation callback, so only one of the two declared
lines reaches the header callback. -/
theorem c1_counterexample :
    (Parse st0 [lVer, lEnd, intro42, lEnd, blank4]).map (fun p => p.2) =
      .ok [headerEv lVer, headerEv lEnd, Event.obs ⟨0, 0, 0, 0, 0, 4, 0, 0, []⟩, headerEv lEnd, Event.obs ⟨0, 0, 0, 0, 0, 4, 0, 0, []⟩] ∧
    ([headerEv lEnd, Event.obs ⟨0, 0, 0, 0, 0, 4, 0, 0, []⟩] : List Event).countP (fun e => isHeaderEv e) = 1 :=
  ⟨rfl, by decide⟩

/-- C1 as amended: an epoch intro line with flag 2 to 5 (in either
version) emits exactly one record, with an empty satellite list, and
then exactly N following lines go to the header callback with the mode
returning to data afterwards, provided none of those N lines bears one
of the five recognized special header labels (an embedded END OF HEADER
ends the routing early, and a failing special handler aborts the
parse). -/
theorem c1_special_event_routing :
    (∀ (r : ObsReader) (li : List Nat) (ls : List (List Nat)) (N : Nat),
      r.inHeader = false → r.version = 2 → r.lastSystem = 0 →
      li.length ≤ 80 →
      50 ≤ getB (pad80 li) 28 → getB (pad80 li) 28 ≤ 53 →
      parseUint (sub2 (pad80 li) 29 32) 16 = .ok N →
      v2EpochOkB (pad80 li) = true →
      ls.length = N → 0 < N →
      (∀ l ∈ ls, l.length ≤ 80 ∧ labelOf l ∉ specialLabels) →
      ∃ r2 rec, parseLines r (li :: ls) = .ok (r2, Event.obs rec :: ls.map headerEv) ∧
        rec.Sat = [] ∧ rec.EpochFlag = byteSub (getB (pad80 li) 28) 48 ∧
        r2.inHeader = false ∧ r2.count = 0) ∧
    (∀ (r : ObsReader) (li : List Nat) (ls : List (List Nat)) (N : Nat),
      r.inHeader = false → r.version = 3 →
      35 ≤ li.length → getB li 0 = 62 →
      50 ≤ getB li 28 → getB li 28 ≤ 53 →
      parseUint (sub2 li 32 35) 16 = .ok N →
      v3EpochOkB li = true →
      ls.length = N → 0 < N →
      (∀ l ∈ ls, l.length ≤ 80 ∧ labelOf l ∉ specialLabels) →
      ∃ r2 rec, parseLines r (li :: ls) = .ok (r2, Event.obs rec :: ls.map headerEv) ∧
        rec.Sat = [] ∧ rec.EpochFlag = byteSub (getB li 28) 48 ∧
        r2.inHeader = false ∧ r2.count = 0) := by
  constructor
  · intro r li ls N hin hv2 hls0 hlen hf1 hf2 hcnt hep hlslen hN hgood
    obtain ⟨r4, hintro, hsat, hflag, hih4, hc4, hver4, hls4, hobs4⟩ :=
      parseV2ObsIntro_special r (pad80 li) N hf1 hf2 hcnt hN hep
    have hframe : frameLine r li = .ok (pad80 li) := by
      unfold frameLine
      rw [if_pos (Or.inr hv2), if_neg (by omega : ¬ 80 < li.length)]
      rfl
    have hpl : parseLine r li = .ok (r4, [Event.obs r4.obsRec]) := by
      unfold parseLine
      rw [hframe]
      simp only [mBind_ok]
      rw [if_neg (by simp [hin]), if_pos hv2]
      unfold parseV2
      rw [if_pos hls0, hintro]
      simp only [mBind_ok]
      rw [if_neg (by simp only [hflag, byteSub]; omega)]
    refine ⟨{ r4 with count := 0, inHeader := false }, r4.obsRec, ?_, hsat, hflag, rfl, rfl⟩
    unfold parseLines
    rw [hpl]
    simp only [mBind_ok]
    rw [headerPhaseRun ls r4 hih4 (hc4.trans hlslen.symm) (by omega) hgood]
    rfl
  · intro r li ls N hin hv3 hlen h62 hf1 hf2 hcnt hep hlslen hN hgood
    obtain ⟨r4, hintro, hsat, hflag, hih4, hc4, hver4, hls4, hobs4⟩ :=
      parseV3ObsIntro_special r li N hlen hf1 hf2 hcnt hN hep
    have hframe : frameLine r li = .ok li := by
      unfold frameLine
      rw [if_neg (by simp [hin, hv3])]
    have hg0 : getChk li 0 = .ok (getB li 0) := by
      unfold getChk
      rw [if_pos (by omega)]
      rfl
    have hpl : parseLine r li = .ok (r4, [Event.obs r4.obsRec]) := by
      unfold parseLine
      rw [hframe]
      simp only [mBind_ok]
      rw [if_neg (by simp [hin]), if_neg (by simp [hv3]), if_pos hv3]
      unfold parseV3
      rw [hg0]
      simp only [mBind_ok]
      rw [if_pos h62, hintro]
    refine ⟨{ r4 with count := 0, inHeader := false }, r4.obsRec, ?_, hsat, hflag, rfl, rfl⟩
    unfold parseLines
    rw [hpl]
    simp only [mBind_ok]
    rw [headerPhaseRun ls r4 hih4 (hc4.trans hlslen.symm) (by omega) hgood]
    rfl

/-- C1 amended, witness: in both versions, a concrete flag-4 intro
declaring two lines routes two COMMENT lines to the header callback
after the one emitted empty record. -/
theorem c1_witness :
    (∃ r2 rec, parseLines { st0 with version := 2 } (intro42 :: [com1, com1]) = .ok (r2, Event.obs rec :: [com1, com1].map headerEv) ∧
      rec.Sat = [] ∧ rec.EpochFlag = byteSub (getB (pad80 intro42) 28) 48 ∧
      r2.inHeader = false ∧ r2.count = 0) ∧
    (∃ r2 rec, parseLines { st0 with version := 3 } (v3intro4 :: [com1, com1]) = .ok (r2, Event.obs rec :: [com1, com1].map headerEv) ∧
      rec.Sat = [] ∧ rec.EpochFlag = byteSub (getB v3intro4 28) 48 ∧
      r2.inHeader = false ∧ r2.count = 0) :=
  ⟨c1_special_event_routing.1 { st0 with version := 2 } intro42 [com1, com1] 2
      rfl rfl rfl (by decide) (by decide) (by decide) rfl rfl rfl (by decide) (by decide),
    c1_special_event_routing.2 { st0 with version := 3 } v3intro4 [com1, com1] 2
      rfl rfl (by decide) (by decide) (by decide) (by decide) rfl rfl rfl (by decide) (by decide)⟩

/-- Prefix composition of the scan loop: a stream that stops after a
prefix that parsed successfully returns success with exactly the events
already emitted; whatever the removed suffix would have produced is
simply absent. -/
theorem parseLines_append (xs : List (List Nat)) : ∀ (r r1 : ObsReader) (e1 : List Event) (ys : List (List Nat)),
    parseLines r xs = .ok (r1, e1) →
    parseLines r (xs ++ ys) = (parseLines r1 ys).map (fun q => (q.1, e1 ++ q.2)) := by
  induction xs with
  | nil =>
    intro r r1 e1 ys h
    simp only [parseLines] at h
    cases h
    simp only [List.nil_append]
    cases hq : parseLines r ys with
    | ok w => simp [Except.map, hq]
    | error e => simp [Except.map, hq]
  | cons x xs ih =>
    intro r r1 e1 ys h
    rw [parseLines] at h
    obtain ⟨p, hp, h⟩ := bind_eq_ok h
    obtain ⟨q, hq, h⟩ := bind_eq_ok h
    cases h
    rw [List.cons_append, parseLines, hp]
    simp only [mBind_ok]
    rw [ih _ _ _ ys hq]
    cases hw : parseLines q.1 ys with
    | ok w => simp [Except.map, hw, List.append_assoc]
    | error e => simp [Except.map, hw]

/-- Event discipline of a version-2 intro line: the continuation marker
is untouched, and when the epoch flag calls for satellite data (0, 1
or 6) no record is emitted by the intro itself. -/
theorem parseV2ObsIntro_events (r : ObsReader) (line : List Nat) (p : ObsReader × List Event)
    (hbyte : getB line 28 < 256)
    (h : parseV2ObsIntro r line = .ok p) :
    p.1.lastSystem = r.lastSystem ∧
    ((p.1.obsRec.EpochFlag = 0 ∨ p.1.obsRec.EpochFlag = 1 ∨ p.1.obsRec.EpochFlag = 6) → p.2 = []) := by
  unfold parseV2ObsIntro at h
  obtain ⟨N, hc, h⟩ := bind_eq_ok h
  obtain ⟨r3, he, h⟩ := bind_eq_ok h
  obtain ⟨hfc, hfih, hfver, hfls, hfobs, hfcap, hfsat, hfflag, hfoff⟩ := parseV2Epoch_frame _ _ _ _ he
  split at h
  next hcond =>
    cases h
    refine ⟨hfls, fun hflags => ?_⟩
    exfalso
    obtain ⟨hn48, hn49, hn54⟩ := hcond
    have hEq : ({ r3 with inHeader := decide (0 < r3.count) } : ObsReader).obsRec.EpochFlag = byteSub (getB line 28) 48 := hfflag
    rw [hEq] at hflags
    unfold byteSub at hflags
    omega
  next hcond =>
    obtain ⟨r5, ho, h⟩ := bind_eq_ok h
    have hls5 : r5.lastSystem = r3.lastSystem := by
      split at ho
      · obtain ⟨v, hv, ho⟩ := bind_eq_ok ho
        cases ho
        rfl
      · cases ho
        rfl
    cases h
    refine ⟨?_, fun _ => rfl⟩
    show (if r5.satCap < N then ({ r5 with satCap := N } : ObsReader) else r5).lastSystem = r.lastSystem
    split
    · exact hls5.trans hfls
    · exact hls5.trans hfls

/-- Event discipline of a version-2 observation line: a record is
emitted only by the step that finishes the record and returns the
line-type state to intro (lastSystem 0). -/
theorem parseV2Observations_events (r : ObsReader) (line : List Nat) (p : ObsReader × List Event)
    (h : parseV2Observations r line = .ok p) :
    p.2 = [] ∨ (p.2 = [Event.obs p.1.obsRec] ∧ p.1.lastSystem = 0) := by
  unfold parseV2Observations at h
  split at h
  · simp at h
  · obtain ⟨s, hs, h⟩ := bind_eq_ok h
    split at h
    · split at h
      · cases h
        exact Or.inr ⟨rfl, rfl⟩
      · cases h
        exact Or.inl rfl
    · cases h
      exact Or.inl rfl

/-- Emission discipline of one version-2 data line: whenever a step
emits anything to the observation callback, the resulting state is back
at a record boundary.  A stream that ends mid-record (lastSystem not 0)
has therefore never had its in-progress record delivered.  The byte
hypothesis says column 29 holds an byte value, as any real input does. -/
theorem parseV2_emits_only_at_completion (r : ObsReader) (line : List Nat) (p : ObsReader × List Event)
    (hbyte : getB line 28 < 256)
    (h : parseV2 r line = .ok p) (hne : p.2 ≠ []) : p.1.lastSystem = 0 := by
  unfold parseV2 at h
  split at h
  next hls =>
    obtain ⟨q, hq, h⟩ := bind_eq_ok h
    have hev := parseV2ObsIntro_events r line q hbyte hq
    split at h
    next hflag =>
      obtain ⟨r2, hr2, h⟩ := bind_eq_ok h
      cases h
      exact absurd (hev.2 hflag) hne
    next hflag =>
      cases h
      exact hev.1.trans hls
  next hls =>
    split at h
    next hlt =>
      obtain ⟨r2, hr2, h⟩ := bind_eq_ok h
      cases h
      exact absurd rfl hne
    next hlt =>
      rcases parseV2Observations_events r line p h with he | ⟨hev2, hls0⟩
      · exact absurd he hne
      · exact hls0

/-- C10: a stream that ends in the middle of an observation record is
not an error, and the partial record is never delivered.  First
conjunct: cutting any suffix off a stream whose retained prefix parses
leaves a successful parse with exactly the events already emitted (no
structural error is added for the truncation).  Second conjunct: a
version-2 line step delivers a record to the observation callback only
when it completes the record and returns the state to the record
boundary, so the record in progress at the cut was never delivered. -/
theorem c10_truncation_never_delivers :
    (∀ (r r1 : ObsReader) (e1 : List Event) (xs ys : List (List Nat)),
      parseLines r xs = .ok (r1, e1) →
      parseLines r (xs ++ ys) = (parseLines r1 ys).map (fun q => (q.1, e1 ++ q.2))) ∧
    (∀ (r : ObsReader) (line : List Nat) (p : ObsReader × List Event),
      getB line 28 < 256 → parseV2 r line = .ok p → p.2 ≠ [] → p.1.lastSystem = 0) :=
  ⟨fun r r1 e1 xs ys h => parseLines_append xs r r1 e1 ys h,
   parseV2_emits_only_at_completion⟩

/-- Catalog header line declaring five observation types. -/
def typesLine : List Nat := strBytes "     5    P1    L1    L2    P2    L5" ++ spaces 24 ++ strBytes "# / TYPES OF OBSERV "

/-- Version-2 epoch line with one declared satellite G12, whose
observation lines are about to follow. -/
def introObs : List Nat := strBytes " 05  3 24 13 10 36.0000000  0  1G12" ++ spaces 45

/-- The mid-record state after a version-2 header and one epoch intro
line whose satellite list is complete but whose observations are not. -/
def stMid : ObsReader :=
  ⟨[(32, ⟨[(80, 49, 32), (76, 49, 32), (76, 50, 32), (80, 50, 32), (76, 53, 32)], 5⟩)], 2, 5, 1, 0, 0, false, 2, ⟨5, 3, 24, 13, 10, 0, 36, 0, [⟨(71, 49, 50), []⟩]⟩, 1⟩

/-- C10, witness: a concrete stream truncated after its epoch intro
line parses successfully, emits only the three header events, and ends
mid-record (lastSystem 2); and a concrete emitting step lands on the
record boundary. -/
theorem c10_witness :
    (parseLines { st0 with inHeader := true } ([lVer, typesLine, lEnd, introObs] ++ [strBytes "x"]) =
      (parseLines stMid [strBytes "x"]).map (fun q => (q.1, [headerEv lVer, headerEv typesLine, headerEv lEnd] ++ q.2))) ∧
    stMid.lastSystem = 2 ∧
    (∃ p, parseV2 stData blank4 = .ok p ∧ p.2 ≠ [] ∧ p.1.lastSystem = 0) :=
  ⟨c10_truncation_never_delivers.1 { st0 with inHeader := true } stMid
      [headerEv lVer, headerEv typesLine, headerEv lEnd] [lVer, typesLine, lEnd, introObs] [strBytes "x"] rfl,
   rfl,
   ⟨({ stData with count := 0, inHeader := false, obsRec := ⟨0, 0, 0, 0, 0, 4, 0, 0, []⟩ }, [Event.obs ⟨0, 0, 0, 0, 0, 4, 0, 0, []⟩]), rfl, by decide,
     c10_truncation_never_delivers.2 stData blank4
       ({ stData with count := 0, inHeader := false, obsRec := ⟨0, 0, 0, 0, 0, 4, 0, 0, []⟩ }, [Event.obs ⟨0, 0, 0, 0, 0, 4, 0, 0, []⟩])
       (by decide) rfl (by decide)⟩⟩

end Rinex
